import Mathlib

/-!
Verification development for the 3D particle-interaction repository.

The definitions below are shallow embeddings of the repository's
TypeScript source:

* `calculateGestureData`, `detectHands` — `src/services/vision.ts`
* `frameUpdate` (the per-frame smoothing of expansion and tilt) and the
  explosion-direction buffer `randomness` — `src/components/ParticleMesh.tsx`
* `generateParticles`, `randomPointInSphere` and the per-shape samplers —
  `src/utils/geometry.ts` (the unnamed source file `part_000`)
* `loopStep` — the per-frame detection loop of `src/App.tsx`

Machine floats are modelled as real numbers; each call to
`Math.random()` (uniform in `[0,1)`) is modelled as the next value of an
explicit draw stream `g : ℕ → ℝ`, indexed in the order the source makes
the calls (one fresh stream per particle for the generator).
`Math.cbrt x` and `Math.pow x e` appear only with nonnegative bases and
are modelled by the real power `x ^ (e : ℝ)`.  The JavaScript idiom
`expr || c` (substitute `c` when `expr` is `0`) is modelled by an
explicit test against `0`.
-/

noncomputable section

/-- One MediaPipe hand landmark, normalized image coordinates.
The source only ever reads the `x` and `y` fields. -/
structure Landmark where
  x : ℝ
  y : ℝ
  z : ℝ

/-- Result of the hand-landmark detector: zero or more hands, each a list
of landmarks (MediaPipe produces 21 per hand). -/
structure HandLandmarkerResult where
  landmarks : List (List Landmark)

/-- The gesture record produced per frame by `calculateGestureData`. -/
structure GestureData where
  expansion : ℝ
  lift : ℝ

/-- Placeholder used by `List.getD` for an out-of-range landmark index.
The source would throw a TypeError on such an access (reading a field of
`undefined`), so the embedding is exact only for in-range indexing —
which MediaPipe's 21-landmark hands always satisfy, as do the concrete
inputs the counterexamples and witnesses below are evaluated at. -/
def defaultLandmark : Landmark := ⟨0, 0, 0⟩

/-- Embedding of `calculateGestureData` from `src/services/vision.ts`.
The source initializes `expansion = 0`, `lift = 0.5`, returns early for an
empty landmark list, handles exactly-2 and exactly-1 hands, and otherwise
returns the untouched defaults. -/
def calculateGestureData (result : HandLandmarkerResult) : GestureData :=
  if result.landmarks.length = 0 then
    { expansion := 0, lift := 0.5 }
  else if result.landmarks.length = 2 then
    -- Case: 2 hands — distance between wrists (landmark 0 of each hand)
    let hand1 := (result.landmarks.getD 0 []).getD 0 defaultLandmark
    let hand2 := (result.landmarks.getD 1 []).getD 0 defaultLandmark
    let dx := hand1.x - hand2.x
    let dy := hand1.y - hand2.y
    let distance := Real.sqrt (dx * dx + dy * dy)
    let minD : ℝ := 0.15
    let maxD : ℝ := 0.50
    let raw := (distance - minD) / (maxD - minD)
    { expansion := min (max raw 0) 1, lift := (hand1.y + hand2.y) / 2 }
  else if result.landmarks.length = 1 then
    -- Case: 1 hand — thumb-to-pinky spread over hand size
    let hand := result.landmarks.getD 0 []
    let thumbTip := hand.getD 4 defaultLandmark
    let pinkyTip := hand.getD 20 defaultLandmark
    let wrist := hand.getD 0 defaultLandmark
    let middleMCP := hand.getD 9 defaultLandmark
    let spreadDx := thumbTip.x - pinkyTip.x
    let spreadDy := thumbTip.y - pinkyTip.y
    let spread := Real.sqrt (spreadDx * spreadDx + spreadDy * spreadDy)
    let sizeDx := middleMCP.x - wrist.x
    let sizeDy := middleMCP.y - wrist.y
    -- JS: Math.sqrt(...) || 0.1
    let handSize0 := Real.sqrt (sizeDx * sizeDx + sizeDy * sizeDy)
    let handSize := if handSize0 = 0 then 0.1 else handSize0
    let normalizedSpread := spread / handSize
    let minSpread : ℝ := 0.5
    let maxSpread : ℝ := 1.2
    let raw := (normalizedSpread - minSpread) / (maxSpread - minSpread)
    { expansion := min (max raw 0) 1, lift := wrist.y }
  else
    { expansion := 0, lift := 0.5 }

/-- Embedding of `detectHands` from `src/services/vision.ts`.  The module
state is whether `handLandmarker` has been initialized; the behaviour of
`detectForVideo` on the current frame is passed as an `Except` value
(`error` for a thrown exception, which the source catches). -/
def detectHands (initialized : Bool)
    (outcome : Except Unit HandLandmarkerResult) : Option HandLandmarkerResult :=
  if initialized then
    match outcome with
    | .ok r => some r
    | .error _ => none
  else
    none

/-- Observable per-frame state of the detection loop in `src/App.tsx`:
the displayed hand count and the shared gesture mailbox. -/
structure LoopState where
  detectedHands : ℕ
  gesture : GestureData

/-- One iteration of the detection loop in `src/App.tsx` (`startDetection`).
Returns the new state and whether the next frame is scheduled
(`requestAnimationFrame` is reached unconditionally, so the second
component is always `true`). -/
def loopStep (st : LoopState) (videoReady : Bool)
    (detection : Option HandLandmarkerResult) : LoopState × Bool :=
  if videoReady then
    match detection with
    | some result =>
        (⟨result.landmarks.length, calculateGestureData result⟩, true)
    | none => ({ st with detectedHands := 0 }, true)
  else
    (st, true)

/-- `THREE.MathUtils.lerp`: `x + (y - x) * t`. -/
def lerp (x y t : ℝ) : ℝ := x + (y - x) * t

/-- The smoothed animation state owned by the render loop in
`src/components/ParticleMesh.tsx`: the `uExpansion` shader uniform and the
mesh's X rotation (tilt). -/
structure FrameState where
  uExpansion : ℝ
  rotationX : ℝ

/-- Embedding of the smoothing performed by the `useFrame` callback of
`src/components/ParticleMesh.tsx`: expansion is lerped toward the gesture
expansion with constant weight `0.1`; the tilt is lerped toward
`(lift - 0.5) * 1.5` with weight `0.05`. -/
def frameUpdate (st : FrameState) (gd : GestureData) : FrameState :=
  { uExpansion := lerp st.uExpansion gd.expansion 0.1,
    rotationX := lerp st.rotationX ((gd.lift - 0.5) * 1.5) 0.05 }

/-- The shape selectors of `src/types.ts`; `OTHER` stands for any value
outside the enumeration, which reaches the generator's `default` branch. -/
inductive ShapeType where
  | HEART
  | ROSE
  | SATURN
  | DL
  | TREE
  | OTHER

/-- `randomPointInSphere` from `src/utils/geometry.ts`; `u v w` are its
three `Math.random()` draws in call order
(`u`, `v`, then the draw inside `Math.cbrt`). -/
def randomPointInSphere (radius u v w : ℝ) : ℝ × ℝ × ℝ :=
  let theta := 2 * Real.pi * u
  let phi := Real.arccos (2 * v - 1)
  let r := w ^ ((1 : ℝ)/3) * radius
  (r * Real.sin phi * Real.cos theta,
   r * Real.sin phi * Real.sin theta,
   r * Real.cos phi)

/-- One particle of the `HEART` case of `generateParticles`;
`g 0` is the parameter draw, `g 1` the border/center branch draw,
`g 2` the scale draw, `g 3` the depth draw. -/
def heartPoint (g : ℕ → ℝ) : ℝ × ℝ × ℝ :=
  let t := g 0 * Real.pi * 2
  let x := 16 * Real.sin t ^ 3
  let y := 13 * Real.cos t - 5 * Real.cos (2 * t) - 2 * Real.cos (3 * t)
             - Real.cos (4 * t)
  let scale := if g 1 < 0.7 then 0.95 + g 2 * 0.15 else g 2 ^ ((0.5 : ℝ))
  let z := if g 1 < 0.7 then (g 3 - 0.5) * 1.5 else (g 3 - 0.5) * 8.0 * scale
  (x * scale * 0.15, y * scale * 0.15, z * 0.15)

/-- One particle of the `ROSE` case of `generateParticles`.  Draws in call
order: `g 0` stem/bloom branch; stem: `g 1` height, `g 2` thickness,
`g 3` angle, `g 4` thorn branch, `g 5`/`g 6` thorn offsets; bloom:
`g 1` height parameter, `g 2` angle. -/
def rosePoint (g : ℕ → ℝ) : ℝ × ℝ × ℝ :=
  if g 0 < 0.15 then
    let h := g 1
    let y := -1.5 - h * 2.5
    let curveX := Real.sin (y * 2.0) * 0.1
    let r := g 2 * 0.08
    let theta := g 3 * Real.pi * 2
    let x0 := curveX + r * Real.cos theta
    let z0 := r * Real.sin theta
    let x := if g 4 < 0.05 then x0 + (g 5 - 0.5) * 0.4 else x0
    let z := if g 4 < 0.05 then z0 + (g 6 - 0.5) * 0.4 else z0
    (x, y, z)
  else
    let v := g 1
    let u := g 2 * Real.pi * 2
    let r0 := v ^ ((0.6 : ℝ)) * 1.5
    let petal := Real.sin (u * 3.0 + v * 10.0)
    let r := r0 + petal * 0.2 * v
    (r * Real.cos u, v * 3.0 - 1.5, r * Real.sin u)

/-- One particle of the `SATURN` case of `generateParticles`;
`g 0` is the ring/planet branch draw, `g 1`–`g 3` the draws of the taken
branch in call order. -/
def saturnPoint (g : ℕ → ℝ) : ℝ × ℝ × ℝ :=
  if g 0 > 0.4 then
    let angle := g 1 * Real.pi * 2
    let dist := 3 + g 2 * 2
    (Real.cos angle * dist, (g 3 - 0.5) * 0.1, Real.sin angle * dist)
  else
    randomPointInSphere 1.8 (g 1) (g 2) (g 3)

/-- The `switch (side)` of the letter-L outline in the `DL` case of
`generateParticles`: the six perimeter segments; the source leaves
`x = y = 0` for an impossible out-of-range side. -/
def lOutlineXY (side : ℕ) (g : ℕ → ℝ) : ℝ × ℝ :=
  match side with
  | 0 => (1.0 + (g 2 - 0.5) * 0.1, (g 3 - 0.5) * 3.0)
  | 1 => (1.0 + g 2 * 0.5, 1.5 + (g 3 - 0.5) * 0.1)
  | 2 => (1.5 + (g 2 - 0.5) * 0.1, -1.0 + g 3 * 2.5)
  | 3 => (1.5 + g 2 * 1.0, -1.0 + (g 3 - 0.5) * 0.1)
  | 4 => (2.5 + (g 2 - 0.5) * 0.1, -1.5 + g 3 * 0.5)
  | 5 => (1.0 + g 2 * 1.5, -1.5 + (g 3 - 0.5) * 0.1)
  | _ => (0, 0)

/-- One particle of the `DL` case of `generateParticles`.  The source
tests `i < count / 2` on floats, i.e. `2 * i < count` exactly; `g 0` is
the outline/fill draw, `g 1` the segment-choice draw, `g 2`/`g 3` the
coordinate draws, `g 4` the depth draw. -/
def dlPoint (i count : ℕ) (g : ℕ → ℝ) : ℝ × ℝ × ℝ :=
  if 2 * i < count then
    -- letter D
    if g 0 < 0.7 then
      if g 1 < 0.4 then
        -- vertical back stroke outline
        (-2.5 + (g 2 - 0.5) * 0.2, (g 3 - 0.5) * 3.0, (g 4 - 0.5) * 0.3)
      else
        -- curved front stroke outline
        let angle := (g 2 - 0.5) * Real.pi
        let rad := 1.5 + (g 3 - 0.5) * 0.2
        (-2.0 + rad * Real.cos angle, rad * Real.sin angle, (g 4 - 0.5) * 0.3)
    else
      if g 1 < 0.5 then
        -- vertical fill
        (-2.5 + g 2 * 0.5, (g 3 - 0.5) * 2.8, (g 4 - 0.5) * 0.5)
      else
        -- arc fill; the source clamps x with Math.max(x, -2.0)
        let angle := (g 2 - 0.5) * Real.pi
        let rad := g 3 * 1.5
        (max (-2.0 + rad * Real.cos angle) (-2.0), rad * Real.sin angle,
         (g 4 - 0.5) * 0.5)
  else
    -- letter L
    if g 0 < 0.7 then
      let xy := lOutlineXY (Nat.floor (g 1 * 6)) g
      (xy.1, xy.2, (g 4 - 0.5) * 0.3)
    else
      if g 1 < 0.6 then
        (1.0 + g 2 * 0.5, (g 3 - 0.5) * 3.0, (g 4 - 0.5) * 0.5)
      else
        (1.5 + g 2 * 1.0, -1.5 + g 3 * 0.5, (g 4 - 0.5) * 0.5)

/-- One particle of the `TREE` case of `generateParticles`;
`g 0` is the star/body branch draw, `g 1`–`g 3` the draws of the taken
branch in call order. -/
def treePoint (g : ℕ → ℝ) : ℝ × ℝ × ℝ :=
  if g 0 > 0.95 then
    let p := randomPointInSphere 0.3 (g 1) (g 2) (g 3)
    (p.1, p.2.1 + 2.2, p.2.2)
  else
    let h := g 1
    let maxR := (1.0 - h) * 1.8
    let r := Real.sqrt (g 2) * maxR
    let theta := g 3 * Real.pi * 2
    let y := h * 4.0 - 2.0
    let spiralOffset := Real.sin (y * 10 + theta * 5) * 0.1
    ((r + spiralOffset) * Real.cos theta, y, (r + spiralOffset) * Real.sin theta)

/-- The point `generateParticles` stores for particle `i` of `count`,
given that particle's draw stream `g`. -/
def genPoint (shape : ShapeType) (i count : ℕ) (g : ℕ → ℝ) : ℝ × ℝ × ℝ :=
  match shape with
  | .HEART => heartPoint g
  | .ROSE => rosePoint g
  | .SATURN => saturnPoint g
  | .DL => dlPoint i count g
  | .TREE => treePoint g
  | .OTHER => (0, 0, 0)

/-- Embedding of `generateParticles` from `src/utils/geometry.ts`: the
flat position buffer, with `G i` the draw stream of particle `i`. -/
def generateParticles (shape : ShapeType) (count : ℕ) (G : ℕ → ℕ → ℝ) :
    List ℝ :=
  (List.range count).flatMap fun i =>
    let p := genPoint shape i count (G i)
    [p.1, p.2.1, p.2.2]

/-- One explosion direction from the `useMemo` block of
`src/components/ParticleMesh.tsx`: three centered draws, normalized by
their length, with `len || 1` guarding a zero length. -/
def explosionDir (u v w : ℝ) : ℝ × ℝ × ℝ :=
  let x := u - 0.5
  let y := v - 0.5
  let z := w - 0.5
  let s := Real.sqrt (x * x + y * y + z * z)
  let len := if s = 0 then 1 else s
  (x / len, y / len, z / len)

/-- Embedding of the `randomness` (explosion-direction) buffer of
`src/components/ParticleMesh.tsx`; particle `j` consumes draws
`g (3*j)`, `g (3*j+1)`, `g (3*j+2)` in call order. -/
def randomness (count : ℕ) (g : ℕ → ℝ) : List ℝ :=
  (List.range count).flatMap fun j =>
    let d := explosionDir (g (3 * j)) (g (3 * j + 1)) (g (3 * j + 2))
    [d.1, d.2.1, d.2.2]

/-- Euclidean norm of a 3-vector. -/
def pnorm (p : ℝ × ℝ × ℝ) : ℝ :=
  Real.sqrt (p.1 ^ 2 + p.2.1 ^ 2 + p.2.2 ^ 2)

/-- Planar Euclidean distance between two landmarks, written as the
source computes it (`Math.sqrt (dx*dx + dy*dy)`). -/
def eucDist (p q : Landmark) : ℝ :=
  Real.sqrt ((p.x - q.x) * (p.x - q.x) + (p.y - q.y) * (p.y - q.y))

lemma clamp01_mem (x : ℝ) :
    0 ≤ min (max x 0) 1 ∧ min (max x 0) 1 ≤ 1 :=
  ⟨le_min (le_max_right x 0) zero_le_one, min_le_right _ 1⟩

lemma getD_mem_or_default {α : Type} (l : List α) (i : ℕ) (d : α) :
    l.getD i d ∈ l ∨ l.getD i d = d := by
  rcases lt_or_le i l.length with h | h
  · left
    rw [List.getD_eq_getElem l d h]
    exact List.getElem_mem h
  · right
    exact List.getD_eq_default l d h

lemma calculateGestureData_other (r : HandLandmarkerResult)
    (h1 : r.landmarks.length ≠ 1) (h2 : r.landmarks.length ≠ 2) :
    calculateGestureData r = { expansion := 0, lift := 0.5 } := by
  unfold calculateGestureData
  rcases Nat.eq_zero_or_pos r.landmarks.length with h0 | h0
  · rw [if_pos h0]
  · rw [if_neg (by omega), if_neg h2, if_neg h1]

lemma calculateGestureData_two (l1 l2 : List Landmark) :
    calculateGestureData ⟨[l1, l2]⟩ =
      { expansion := min (max ((eucDist (l1.getD 0 defaultLandmark)
            (l2.getD 0 defaultLandmark) - 0.15) / (0.50 - 0.15)) 0) 1,
        lift := ((l1.getD 0 defaultLandmark).y
                  + (l2.getD 0 defaultLandmark).y) / 2 } := by
  simp [calculateGestureData, eucDist]

lemma calculateGestureData_one (hand : List Landmark) :
    calculateGestureData ⟨[hand]⟩ =
      { expansion :=
          min (max ((eucDist (hand.getD 4 defaultLandmark)
                (hand.getD 20 defaultLandmark) /
              (if eucDist (hand.getD 9 defaultLandmark)
                  (hand.getD 0 defaultLandmark) = 0 then 0.1
               else eucDist (hand.getD 9 defaultLandmark)
                  (hand.getD 0 defaultLandmark)) - 0.5) / (1.2 - 0.5)) 0) 1,
        lift := (hand.getD 0 defaultLandmark).y } := by
  simp [calculateGestureData, eucDist]

/-- Claim C6: whenever the number of detected hands is neither 1 nor 2
(zero hands, or more than two), `calculateGestureData` returns exactly
`{expansion := 0, lift := 0.5}`. -/
theorem gesture_default (r : HandLandmarkerResult)
    (h1 : r.landmarks.length ≠ 1) (h2 : r.landmarks.length ≠ 2) :
    calculateGestureData r = { expansion := 0, lift := 0.5 } :=
  calculateGestureData_other r h1 h2

/-- Witness for C6 at the concrete zero-hands input. -/
theorem gesture_default_witness :
    calculateGestureData ⟨[]⟩ = { expansion := 0, lift := 0.5 } :=
  gesture_default ⟨[]⟩ (by simp) (by simp)

/-- Claim C3: with exactly two detected hands, expansion is the inter-wrist
distance rescaled from `[0.15, 0.50]` to `[0,1]` and clamped, and lift is
the average wrist height; coincident wrists give expansion `0` and wrists
at distance at least `0.5` give expansion `1`. -/
theorem two_hand_gesture (w1 w2 : Landmark) (t1 t2 : List Landmark) :
    calculateGestureData ⟨[w1 :: t1, w2 :: t2]⟩ =
      { expansion := min (max ((eucDist w1 w2 - 0.15) / (0.50 - 0.15)) 0) 1,
        lift := (w1.y + w2.y) / 2 } ∧
    (w1.x = w2.x ∧ w1.y = w2.y →
      (calculateGestureData ⟨[w1 :: t1, w2 :: t2]⟩).expansion = 0) ∧
    (0.5 ≤ eucDist w1 w2 →
      (calculateGestureData ⟨[w1 :: t1, w2 :: t2]⟩).expansion = 1) := by
  have hmain : calculateGestureData ⟨[w1 :: t1, w2 :: t2]⟩ =
      { expansion := min (max ((eucDist w1 w2 - 0.15) / (0.50 - 0.15)) 0) 1,
        lift := (w1.y + w2.y) / 2 } := by
    rw [calculateGestureData_two]
    simp
  refine ⟨hmain, ?_, ?_⟩
  · rintro ⟨hx, hy⟩
    have hd : eucDist w1 w2 = 0 := by
      simp [eucDist, hx, hy]
    rw [hmain]
    simp only [hd]
    have hneg : ((0 : ℝ) - 0.15) / (0.50 - 0.15) ≤ 0 := by norm_num
    rw [max_eq_right hneg, min_eq_left zero_le_one]
  · intro h5
    have h1 : (1 : ℝ) ≤ (eucDist w1 w2 - 0.15) / (0.50 - 0.15) := by
      rw [le_div_iff₀ (by norm_num : (0 : ℝ) < 0.50 - 0.15)]
      linarith
    rw [hmain]
    simp only
    rw [max_eq_left (le_trans zero_le_one h1), min_eq_right h1]

/-- Witness for C3 at two coincident wrists at `(0.3, 0.5)`. -/
theorem two_hand_gesture_witness :
    (calculateGestureData ⟨[[⟨0.3, 0.5, 0⟩], [⟨0.3, 0.5, 0⟩]]⟩).expansion
      = 0 :=
  (two_hand_gesture ⟨0.3, 0.5, 0⟩ ⟨0.3, 0.5, 0⟩ [] []).2.1 ⟨rfl, rfl⟩

/-- Claim C4: with exactly one detected hand, expansion is the
thumb-to-pinky spread over the wrist-to-middle-MCP hand size (with `0.1`
substituted for a zero hand size), rescaled from `[0.5, 1.2]` to `[0,1]`
and clamped; lift is the wrist height; coincident thumb and pinky tips
give expansion `0` for every hand size. -/
theorem one_hand_gesture (hand : List Landmark) :
    calculateGestureData ⟨[hand]⟩ =
      { expansion :=
          min (max ((eucDist (hand.getD 4 defaultLandmark)
                (hand.getD 20 defaultLandmark) /
              (if eucDist (hand.getD 9 defaultLandmark)
                  (hand.getD 0 defaultLandmark) = 0 then 0.1
               else eucDist (hand.getD 9 defaultLandmark)
                  (hand.getD 0 defaultLandmark)) - 0.5) / (1.2 - 0.5)) 0) 1,
        lift := (hand.getD 0 defaultLandmark).y } ∧
    ((hand.getD 4 defaultLandmark).x = (hand.getD 20 defaultLandmark).x ∧
     (hand.getD 4 defaultLandmark).y = (hand.getD 20 defaultLandmark).y →
      (calculateGestureData ⟨[hand]⟩).expansion = 0) := by
  have hmain : calculateGestureData ⟨[hand]⟩ =
      { expansion :=
          min (max ((eucDist (hand.getD 4 defaultLandmark)
                (hand.getD 20 defaultLandmark) /
              (if eucDist (hand.getD 9 defaultLandmark)
                  (hand.getD 0 defaultLandmark) = 0 then 0.1
               else eucDist (hand.getD 9 defaultLandmark)
                  (hand.getD 0 defaultLandmark)) - 0.5) / (1.2 - 0.5)) 0) 1,
        lift := (hand.getD 0 defaultLandmark).y } :=
    calculateGestureData_one hand
  refine ⟨hmain, ?_⟩
  rintro ⟨hx, hy⟩
  have hs : eucDist (hand.getD 4 defaultLandmark)
      (hand.getD 20 defaultLandmark) = 0 := by
    unfold eucDist
    rw [hx, hy]
    simp
  rw [hmain]
  simp only [hs, zero_div]
  have hneg : ((0 : ℝ) - 0.5) / (1.2 - 0.5) ≤ 0 := by norm_num
  rw [max_eq_right hneg, min_eq_left zero_le_one]

/-- Witness for C4 at a concrete hand whose thumb-tip and pinky-tip
landmarks coincide. -/
theorem one_hand_gesture_witness :
    (calculateGestureData ⟨[[⟨0.1, 0.2, 0⟩]]⟩).expansion = 0 :=
  (one_hand_gesture [⟨0.1, 0.2, 0⟩]).2 ⟨rfl, rfl⟩

/-- Counterexample for C2 as stated: a full 21-landmark hand whose
landmarks sit at normalized height `2` (an extreme input the claim
explicitly ranges over) yields `lift = 2`, outside `[0,1]` — the code
never clamps `lift`.  All landmark indices the source reads (0, 4, 9,
20) are in range here, so the embedding and the source agree at this
input. -/
theorem lift_not_clamped :
    (calculateGestureData ⟨[List.replicate 21 ⟨0.3, 2, 0⟩]⟩).lift = 2 ∧
    ¬ ((calculateGestureData ⟨[List.replicate 21 ⟨0.3, 2, 0⟩]⟩).lift ≤ 1) := by
  have hw : (List.replicate 21 (⟨0.3, 2, 0⟩ : Landmark)).getD 0 defaultLandmark
      = ⟨0.3, 2, 0⟩ := by
    rw [List.getD_eq_getElem _ _ (by simp)]
    simp
  have h : (calculateGestureData ⟨[List.replicate 21 ⟨0.3, 2, 0⟩]⟩).lift
      = 2 := by
    rw [calculateGestureData_one, hw]
  exact ⟨h, by rw [h]; norm_num⟩

lemma yBound_of_getD (ls : List (List Landmark))
    (hy : ∀ hand ∈ ls, ∀ p ∈ hand, 0 ≤ p.y ∧ p.y ≤ 1)
    (l : List Landmark) (hl : l ∈ ls) (j : ℕ) :
    0 ≤ (l.getD j defaultLandmark).y ∧ (l.getD j defaultLandmark).y ≤ 1 := by
  rcases getD_mem_or_default l j defaultLandmark with hm | he
  · exact hy l hl _ hm
  · rw [he]
    exact ⟨le_refl 0, zero_le_one⟩

/-- Claim C2, amended: `expansion` is always clamped to `[0,1]`,
unconditionally; `lift` is not clamped by the code — it lies in `[0,1]`
only when every input landmark's vertical coordinate does. -/
theorem gesture_ranges (r : HandLandmarkerResult) :
    (0 ≤ (calculateGestureData r).expansion ∧
      (calculateGestureData r).expansion ≤ 1) ∧
    ((∀ hand ∈ r.landmarks, ∀ p ∈ hand, 0 ≤ p.y ∧ p.y ≤ 1) →
      0 ≤ (calculateGestureData r).lift ∧
        (calculateGestureData r).lift ≤ 1) := by
  obtain ⟨ls⟩ := r
  rcases ls with _ | ⟨h1, _ | ⟨h2, _ | ⟨h3, rest⟩⟩⟩
  · rw [calculateGestureData_other _ (by simp) (by simp)]
    exact ⟨by norm_num, fun _ => by norm_num⟩
  · rw [calculateGestureData_one]
    exact ⟨clamp01_mem _, fun hy => yBound_of_getD _ hy h1 (by simp) 0⟩
  · rw [calculateGestureData_two]
    refine ⟨clamp01_mem _, fun hy => ⟨?_, ?_⟩⟩
    · have a := yBound_of_getD _ hy h1 (by simp) 0
      have b := yBound_of_getD _ hy h2 (by simp) 0
      simp only
      linarith [a.1, b.1]
    · have a := yBound_of_getD _ hy h1 (by simp) 0
      have b := yBound_of_getD _ hy h2 (by simp) 0
      simp only
      linarith [a.2, b.2]
  · rw [calculateGestureData_other _ (by simp only [List.length_cons]; omega)
      (by simp only [List.length_cons]; omega)]
    exact ⟨by norm_num, fun _ => by norm_num⟩

/-- Witness for the amended C2 at a concrete full 21-landmark hand with
all landmark heights inside `[0,1]`, exercising the one-hand path and
discharging the height hypothesis non-vacuously. -/
theorem gesture_ranges_witness :
    (0 ≤ (calculateGestureData
        ⟨[List.replicate 21 ⟨0.3, 0.5, 0⟩]⟩).expansion ∧
      (calculateGestureData
        ⟨[List.replicate 21 ⟨0.3, 0.5, 0⟩]⟩).expansion ≤ 1) ∧
    (0 ≤ (calculateGestureData ⟨[List.replicate 21 ⟨0.3, 0.5, 0⟩]⟩).lift ∧
      (calculateGestureData ⟨[List.replicate 21 ⟨0.3, 0.5, 0⟩]⟩).lift ≤ 1) :=
  ⟨(gesture_ranges ⟨[List.replicate 21 ⟨0.3, 0.5, 0⟩]⟩).1,
   (gesture_ranges ⟨[List.replicate 21 ⟨0.3, 0.5, 0⟩]⟩).2 (by
     intro hand hmem p hp
     rw [List.mem_singleton] at hmem
     subst hmem
     rw [List.eq_of_mem_replicate hp]
     norm_num)⟩

/-- Claim C7: each frame the smoothed expansion contracts its distance to
the gesture expansion by the symmetric factor `0.1`, and the tilt
contracts its distance to the target `(lift - 0.5) * 1.5` radians — which
lies in `[-0.75, 0.75]` for `lift ∈ [0,1]` — by the slower factor
`0.05`. -/
theorem frame_smoothing (st : FrameState) (gd : GestureData) :
    (frameUpdate st gd).uExpansion - gd.expansion
        = (1 - 0.1) * (st.uExpansion - gd.expansion) ∧
    (frameUpdate st gd).rotationX - (gd.lift - 0.5) * 1.5
        = (1 - 0.05) * (st.rotationX - (gd.lift - 0.5) * 1.5) ∧
    (0 ≤ gd.lift → gd.lift ≤ 1 →
      -0.75 ≤ (gd.lift - 0.5) * 1.5 ∧ (gd.lift - 0.5) * 1.5 ≤ 0.75) := by
  refine ⟨?_, ?_, fun hl0 hl1 => ⟨by linarith, by linarith⟩⟩ <;>
    · simp only [frameUpdate, lerp]
      ring

/-- Witness for C7 at a concrete frame state and gesture. -/
theorem frame_smoothing_witness :
    (frameUpdate ⟨0, 0⟩ ⟨1, 0.5⟩).uExpansion - 1
        = (1 - 0.1) * ((0 : ℝ) - 1) ∧
    -0.75 ≤ ((0.5 : ℝ) - 0.5) * 1.5 ∧ ((0.5 : ℝ) - 0.5) * 1.5 ≤ 0.75 :=
  ⟨(frame_smoothing ⟨0, 0⟩ ⟨1, 0.5⟩).1,
   (frame_smoothing ⟨0, 0⟩ ⟨1, 0.5⟩).2.2 (by norm_num) (by norm_num)⟩

/-- Claim C9: when the detector is uninitialized or `detectForVideo`
throws, `detectHands` returns `null` instead of propagating, and the
per-frame loop records a zero-hands frame and still schedules the next
frame. -/
theorem detect_failure_is_no_hands (initialized : Bool)
    (outcome : Except Unit HandLandmarkerResult) (st : LoopState)
    (hfail : initialized = false ∨ outcome = .error ()) :
    detectHands initialized outcome = none ∧
    loopStep st true (detectHands initialized outcome) =
      ({ st with detectedHands := 0 }, true) := by
  have hnone : detectHands initialized outcome = none := by
    rcases hfail with h | h
    · simp [detectHands, h]
    · cases initialized <;> simp [detectHands, h]
  refine ⟨hnone, ?_⟩
  rw [hnone]
  rfl

/-- Witness for C9 at a concrete failing frame (uninitialized detector). -/
theorem detect_failure_is_no_hands_witness :
    detectHands false (.error ()) = none ∧
    loopStep ⟨2, ⟨0, 0.5⟩⟩ true (detectHands false (.error ())) =
      ({ detectedHands := 0, gesture := ⟨0, 0.5⟩ }, true) :=
  detect_failure_is_no_hands false (.error ()) ⟨2, ⟨0, 0.5⟩⟩ (Or.inl rfl)

lemma sphere_norm_le (radius u v w : ℝ) (hradius : 0 ≤ radius)
    (hw : 0 ≤ w) (hw1 : w ≤ 1) :
    pnorm (randomPointInSphere radius u v w) ≤ radius := by
  simp only [randomPointInSphere, pnorm]
  set θ := 2 * Real.pi * u with hθ
  set φ := Real.arccos (2 * v - 1) with hφ
  set r := w ^ ((1 : ℝ)/3) * radius with hr
  have h1 : Real.sin θ ^ 2 + Real.cos θ ^ 2 = 1 := Real.sin_sq_add_cos_sq θ
  have h2 : Real.sin φ ^ 2 + Real.cos φ ^ 2 = 1 := Real.sin_sq_add_cos_sq φ
  have hkey : (r * Real.sin φ * Real.cos θ) ^ 2
      + (r * Real.sin φ * Real.sin θ) ^ 2 + (r * Real.cos φ) ^ 2 = r ^ 2 := by
    calc (r * Real.sin φ * Real.cos θ) ^ 2
          + (r * Real.sin φ * Real.sin θ) ^ 2 + (r * Real.cos φ) ^ 2
        = r ^ 2 * (Real.sin φ ^ 2 * (Real.sin θ ^ 2 + Real.cos θ ^ 2)
            + Real.cos φ ^ 2) := by ring
      _ = r ^ 2 * (Real.sin φ ^ 2 + Real.cos φ ^ 2) := by rw [h1]; ring
      _ = r ^ 2 * 1 := by rw [h2]
      _ = r ^ 2 := mul_one _
  rw [hkey]
  have hr0 : 0 ≤ r := mul_nonneg (Real.rpow_nonneg hw _) hradius
  rw [Real.sqrt_sq hr0]
  calc r = w ^ ((1 : ℝ)/3) * radius := hr
    _ ≤ 1 * radius :=
        mul_le_mul_of_nonneg_right
          (Real.rpow_le_one hw hw1 (by norm_num)) hradius
    _ = radius := one_mul radius

/-- Claim C10: for every nonnegative radius and draws in `[0,1)`,
`randomPointInSphere` returns a point of norm at most the radius; hence
Saturn's sphere-body particles lie within `1.8` of the origin and the
Tree's star-ornament particles lie within `0.3` of their offset center
`(0, 2.2, 0)`. -/
theorem randomPointInSphere_in_ball (radius u v w : ℝ) (g : ℕ → ℝ)
    (hradius : 0 ≤ radius) (hu : 0 ≤ u) (hu1 : u < 1)
    (hv : 0 ≤ v) (hv1 : v < 1) (hw : 0 ≤ w) (hw1 : w < 1)
    (hg : ∀ k, 0 ≤ g k ∧ g k < 1) :
    pnorm (randomPointInSphere radius u v w) ≤ radius ∧
    (¬ g 0 > 0.4 → pnorm (saturnPoint g) ≤ 1.8) ∧
    (g 0 > 0.95 →
      pnorm ((treePoint g).1, (treePoint g).2.1 - 2.2, (treePoint g).2.2)
        ≤ 0.3) := by
  refine ⟨sphere_norm_le radius u v w hradius hw hw1.le, ?_, ?_⟩
  · intro hbranch
    rw [saturnPoint, if_neg hbranch]
    exact sphere_norm_le 1.8 (g 1) (g 2) (g 3) (by norm_num)
      (hg 3).1 (hg 3).2.le
  · intro hbranch
    rw [treePoint, if_pos hbranch]
    simp only [add_sub_cancel_right]
    exact sphere_norm_le 0.3 (g 1) (g 2) (g 3) (by norm_num)
      (hg 3).1 (hg 3).2.le

/-- Witness for C10 at concrete radius `2` and draws `0`, with the Tree
star branch taken for the all-`0.96` stream. -/
theorem randomPointInSphere_in_ball_witness :
    pnorm (randomPointInSphere 2 0 0 0) ≤ 2 ∧
    pnorm ((treePoint fun _ => 0.96).1,
      (treePoint fun _ => 0.96).2.1 - 2.2,
      (treePoint fun _ => 0.96).2.2) ≤ 0.3 :=
  ⟨(randomPointInSphere_in_ball 2 0 0 0 (fun _ => 0.96) (by norm_num)
      (by norm_num) (by norm_num) (by norm_num) (by norm_num) (by norm_num)
      (by norm_num) (fun k => by norm_num)).1,
   (randomPointInSphere_in_ball 2 0 0 0 (fun _ => 0.96) (by norm_num)
      (by norm_num) (by norm_num) (by norm_num) (by norm_num) (by norm_num)
      (by norm_num) (fun k => by norm_num)).2.2 (by norm_num)⟩

/-- Claim C8: a particle of letter D that takes the arc-interior-fill
branch always lands with its x-coordinate on the right side of the arc's
center line `x = -2` (the source guards the sampled x with
`Math.max(x, -2.0)`). -/
theorem dl_arc_fill_right_side (i count : ℕ) (g : ℕ → ℝ)
    (hD : 2 * i < count) (hFill : ¬ g 0 < 0.7) (hArc : ¬ g 1 < 0.5) :
    -2 ≤ (dlPoint i count g).1 := by
  simp only [dlPoint, if_pos hD, if_neg hFill, if_neg hArc]
  exact le_max_iff.mpr (Or.inr (by norm_num))

/-- Witness for C8 at a concrete arc-fill particle. -/
theorem dl_arc_fill_right_side_witness :
    -2 ≤ (dlPoint 0 1 fun _ => 0.9).1 :=
  dl_arc_fill_right_side 0 1 (fun _ => 0.9) (by norm_num) (by norm_num)
    (by norm_num)

lemma flatMap_triple_length {α : Type} (n : ℕ) (f : ℕ → α × α × α) :
    ((List.range n).flatMap fun i =>
      [(f i).1, (f i).2.1, (f i).2.2]).length = 3 * n := by
  induction n with
  | zero => simp
  | succ m ih =>
      rw [List.range_succ, List.flatMap_append, List.length_append, ih]
      simp only [List.flatMap_cons, List.flatMap_nil, List.append_nil,
        List.length_cons, List.length_nil]
      omega

lemma randomness_length (count : ℕ) (g : ℕ → ℝ) :
    (randomness count g).length = 3 * count :=
  flatMap_triple_length count _

lemma generateParticles_length (shape : ShapeType) (count : ℕ)
    (G : ℕ → ℕ → ℝ) :
    (generateParticles shape count G).length = 3 * count :=
  flatMap_triple_length count _

/-- Counterexample for C5 as stated: when all three centered draws of a
particle are `0`, i.e. each `Math.random()` call returned exactly `0.5`,
the fallback length `1` is used and the stored direction is the zero
vector, whose norm is `0`, not `1`. -/
theorem explosion_dir_zero_vector :
    randomness 1 (fun _ => 0.5) = [0, 0, 0] ∧
    pnorm (explosionDir 0.5 0.5 0.5) = 0 ∧ (0 : ℝ) ≠ 1 := by
  have hdir : explosionDir 0.5 0.5 0.5 = (0, 0, 0) := by
    simp [explosionDir]
  refine ⟨?_, ?_, by norm_num⟩
  · simp [randomness, List.range_succ, hdir]
  · rw [hdir]
    simp [pnorm]

/-- Claim C5, amended: the explosion-direction buffer always has length
`3 × count`, equal to the position buffer's length, and every particle's
direction has unit norm except in the degenerate case where all three of
its draws are exactly `0.5`, which stores the zero vector. -/
theorem randomness_spec (count : ℕ) (g : ℕ → ℝ) (shape : ShapeType)
    (G : ℕ → ℕ → ℝ) (j : ℕ) (hj : j < count)
    (hne : ¬ (g (3 * j) = 0.5 ∧ g (3 * j + 1) = 0.5 ∧ g (3 * j + 2) = 0.5)) :
    (randomness count g).length = 3 * count ∧
    (randomness count g).length = (generateParticles shape count G).length ∧
    pnorm (explosionDir (g (3 * j)) (g (3 * j + 1)) (g (3 * j + 2))) = 1 := by
  refine ⟨randomness_length count g, ?_, ?_⟩
  · rw [randomness_length, generateParticles_length]
  · set a := g (3 * j) - 0.5 with ha
    set b := g (3 * j + 1) - 0.5 with hb
    set c := g (3 * j + 2) - 0.5 with hc
    have hS : 0 < a * a + b * b + c * c := by
      rcases not_and_or.mp hne with h | h
      · have hane : a ≠ 0 := fun h0 => h (by rw [ha] at h0; linarith)
        nlinarith [mul_self_nonneg b, mul_self_nonneg c, mul_self_pos.mpr hane]
      rcases not_and_or.mp h with h2 | h2
      · have hbne : b ≠ 0 := fun h0 => h2 (by rw [hb] at h0; linarith)
        nlinarith [mul_self_nonneg a, mul_self_nonneg c, mul_self_pos.mpr hbne]
      · have hcne : c ≠ 0 := fun h0 => h2 (by rw [hc] at h0; linarith)
        nlinarith [mul_self_nonneg a, mul_self_nonneg b, mul_self_pos.mpr hcne]
    have hs : 0 < Real.sqrt (a * a + b * b + c * c) := Real.sqrt_pos.mpr hS
    simp only [explosionDir, pnorm, ← ha, ← hb, ← hc]
    rw [if_neg (ne_of_gt hs)]
    have hsq : Real.sqrt (a * a + b * b + c * c)
        * Real.sqrt (a * a + b * b + c * c) = a * a + b * b + c * c :=
      Real.mul_self_sqrt hS.le
    have harg : (a / Real.sqrt (a * a + b * b + c * c)) ^ 2
        + (b / Real.sqrt (a * a + b * b + c * c)) ^ 2
        + (c / Real.sqrt (a * a + b * b + c * c)) ^ 2 = 1 := by
      field_simp
      nlinarith [hsq]
    rw [harg, Real.sqrt_one]

/-- Witness for the amended C5 at a concrete one-particle buffer whose
draws are all `0`. -/
theorem randomness_spec_witness :
    (randomness 1 fun _ => 0).length = 3 * 1 ∧
    (randomness 1 fun _ => 0).length
      = (generateParticles ShapeType.HEART 1 fun _ _ => 0).length ∧
    pnorm (explosionDir 0 0 0) = 1 :=
  randomness_spec 1 (fun _ => 0) ShapeType.HEART (fun _ _ => 0) 0
    (by norm_num) (by norm_num)

lemma abs_mul_le {a b A B : ℝ} (ha : |a| ≤ A) (hb : |b| ≤ B) :
    |a * b| ≤ A * B := by
  rw [abs_mul]
  exact mul_le_mul ha hb (abs_nonneg b) (le_trans (abs_nonneg a) ha)

lemma prod3_bound {a b c A B C : ℝ} (ha : |a| ≤ A) (hb : |b| ≤ B)
    (hc : |c| ≤ C) (h : A * B * C ≤ 6) : |a * b * c| ≤ 6 :=
  le_trans (abs_mul_le (abs_mul_le ha hb) hc) h

lemma abs_le_self_of_nonneg {c : ℝ} (h : 0 ≤ c) : |c| ≤ c :=
  le_of_eq (abs_of_nonneg h)

lemma centered_draw_abs {x : ℝ} (h0 : 0 ≤ x) (h1 : x < 1) :
    |x - 0.5| ≤ 0.5 := by
  rw [abs_le]
  constructor <;> linarith

/-- All three components of `randomPointInSphere` are bounded by the
radius in absolute value. -/
lemma sphere_comp_le (radius u v w : ℝ) (hradius : 0 ≤ radius)
    (hw : 0 ≤ w) (hw1 : w ≤ 1) :
    |(randomPointInSphere radius u v w).1| ≤ radius ∧
    |(randomPointInSphere radius u v w).2.1| ≤ radius ∧
    |(randomPointInSphere radius u v w).2.2| ≤ radius := by
  simp only [randomPointInSphere]
  have hr : |w ^ ((1 : ℝ)/3) * radius| ≤ radius := by
    rw [abs_mul, abs_of_nonneg (Real.rpow_nonneg hw _),
      abs_of_nonneg hradius]
    calc w ^ ((1 : ℝ)/3) * radius ≤ 1 * radius :=
          mul_le_mul_of_nonneg_right
            (Real.rpow_le_one hw hw1 (by norm_num)) hradius
      _ = radius := one_mul radius
  refine ⟨?_, ?_, ?_⟩
  · calc |w ^ ((1 : ℝ)/3) * radius * Real.sin _ * Real.cos _|
        ≤ radius * 1 * 1 :=
          abs_mul_le (abs_mul_le hr (Real.abs_sin_le_one _))
            (Real.abs_cos_le_one _)
      _ = radius := by ring
  · calc |w ^ ((1 : ℝ)/3) * radius * Real.sin _ * Real.sin _|
        ≤ radius * 1 * 1 :=
          abs_mul_le (abs_mul_le hr (Real.abs_sin_le_one _))
            (Real.abs_sin_le_one _)
      _ = radius := by ring
  · calc |w ^ ((1 : ℝ)/3) * radius * Real.cos _| ≤ radius * 1 :=
          abs_mul_le hr (Real.abs_cos_le_one _)
      _ = radius := by ring

/-- Componentwise bound used to express that generated coordinates are
finite: every coordinate has absolute value at most `6`. -/
def bounded6 (p : ℝ × ℝ × ℝ) : Prop :=
  |p.1| ≤ 6 ∧ |p.2.1| ≤ 6 ∧ |p.2.2| ≤ 6

lemma heartPoint_bound (g : ℕ → ℝ) (hg : ∀ k, 0 ≤ g k ∧ g k < 1) :
    bounded6 (heartPoint g) := by
  obtain ⟨h2a, h2b⟩ := hg 2
  obtain ⟨h3a, h3b⟩ := hg 3
  have hx16 : |16 * Real.sin (g 0 * Real.pi * 2) ^ 3| ≤ 16 := by
    rw [abs_mul, abs_pow, abs_of_nonneg (by norm_num : (0 : ℝ) ≤ 16)]
    calc 16 * |Real.sin (g 0 * Real.pi * 2)| ^ 3 ≤ 16 * 1 :=
          mul_le_mul_of_nonneg_left
            (pow_le_one₀ (abs_nonneg _) (Real.abs_sin_le_one _))
            (by norm_num)
      _ = 16 := mul_one 16
  have hy21 : |13 * Real.cos (g 0 * Real.pi * 2)
      - 5 * Real.cos (2 * (g 0 * Real.pi * 2))
      - 2 * Real.cos (3 * (g 0 * Real.pi * 2))
      - Real.cos (4 * (g 0 * Real.pi * 2))| ≤ 21 := by
    have c1 := abs_le.mp (Real.abs_cos_le_one (g 0 * Real.pi * 2))
    have c2 := abs_le.mp (Real.abs_cos_le_one (2 * (g 0 * Real.pi * 2)))
    have c3 := abs_le.mp (Real.abs_cos_le_one (3 * (g 0 * Real.pi * 2)))
    have c4 := abs_le.mp (Real.abs_cos_le_one (4 * (g 0 * Real.pi * 2)))
    rw [abs_le]
    constructor <;> linarith [c1.1, c1.2, c2.1, c2.2, c3.1, c3.2, c4.1, c4.2]
  by_cases hb : g 1 < 0.7
  · simp only [heartPoint, bounded6, if_pos hb]
    have hscale : |0.95 + g 2 * 0.15| ≤ 1.1 := by
      rw [abs_of_nonneg (by linarith)]
      linarith
    refine ⟨?_, ?_, ?_⟩
    · exact prod3_bound hx16 hscale
        (abs_le_self_of_nonneg (by norm_num)) (by norm_num)
    · exact prod3_bound hy21 hscale
        (abs_le_self_of_nonneg (by norm_num)) (by norm_num)
    · calc |(g 3 - 0.5) * 1.5 * 0.15| ≤ 0.5 * 1.5 * 0.15 :=
            abs_mul_le
              (abs_mul_le (centered_draw_abs h3a h3b)
                (abs_le_self_of_nonneg (by norm_num)))
              (abs_le_self_of_nonneg (by norm_num))
        _ ≤ 6 := by norm_num
  · simp only [heartPoint, bounded6, if_neg hb]
    have hscale : |g 2 ^ ((0.5 : ℝ))| ≤ 1 := by
      rw [abs_of_nonneg (Real.rpow_nonneg h2a _)]
      exact Real.rpow_le_one h2a h2b.le (by norm_num)
    refine ⟨?_, ?_, ?_⟩
    · exact prod3_bound hx16 hscale
        (abs_le_self_of_nonneg (by norm_num)) (by norm_num)
    · exact prod3_bound hy21 hscale
        (abs_le_self_of_nonneg (by norm_num)) (by norm_num)
    · calc |(g 3 - 0.5) * 8.0 * g 2 ^ ((0.5 : ℝ)) * 0.15|
          ≤ 0.5 * 8.0 * 1 * 0.15 :=
            abs_mul_le
              (abs_mul_le
                (abs_mul_le (centered_draw_abs h3a h3b)
                  (abs_le_self_of_nonneg (by norm_num)))
                hscale)
              (abs_le_self_of_nonneg (by norm_num))
        _ ≤ 6 := by norm_num

lemma rosePoint_bound (g : ℕ → ℝ) (hg : ∀ k, 0 ≤ g k ∧ g k < 1) :
    bounded6 (rosePoint g) := by
  obtain ⟨h1a, h1b⟩ := hg 1
  obtain ⟨h2a, h2b⟩ := hg 2
  obtain ⟨h5a, h5b⟩ := hg 5
  obtain ⟨h6a, h6b⟩ := hg 6
  by_cases hstem : g 0 < 0.15
  · have hy : |(-1.5 : ℝ) - g 1 * 2.5| ≤ 6 := by
      rw [abs_le]
      constructor <;> linarith
    have hcurve : |Real.sin ((-1.5 - g 1 * 2.5) * 2.0) * 0.1| ≤ 0.1 := by
      calc |Real.sin ((-1.5 - g 1 * 2.5) * 2.0) * 0.1| ≤ 1 * 0.1 :=
            abs_mul_le (Real.abs_sin_le_one _)
              (abs_le_self_of_nonneg (by norm_num))
        _ = 0.1 := one_mul 0.1
    have hrc : |g 2 * 0.08 * Real.cos (g 3 * Real.pi * 2)| ≤ 0.08 := by
      calc |g 2 * 0.08 * Real.cos (g 3 * Real.pi * 2)| ≤ 0.08 * 1 :=
            abs_mul_le (by rw [abs_mul]
                           calc |g 2| * |(0.08 : ℝ)| ≤ 1 * 0.08 := by
                                  rw [abs_of_nonneg (by norm_num : (0:ℝ) ≤ 0.08)]
                                  exact mul_le_mul_of_nonneg_right
                                    (abs_le.mpr ⟨by linarith, by linarith⟩)
                                    (by norm_num)
                             _ = 0.08 := one_mul 0.08)
              (Real.abs_cos_le_one _)
        _ = 0.08 := mul_one 0.08
    have hrs : |g 2 * 0.08 * Real.sin (g 3 * Real.pi * 2)| ≤ 0.08 := by
      calc |g 2 * 0.08 * Real.sin (g 3 * Real.pi * 2)| ≤ 0.08 * 1 :=
            abs_mul_le (by rw [abs_mul]
                           calc |g 2| * |(0.08 : ℝ)| ≤ 1 * 0.08 := by
                                  rw [abs_of_nonneg (by norm_num : (0:ℝ) ≤ 0.08)]
                                  exact mul_le_mul_of_nonneg_right
                                    (abs_le.mpr ⟨by linarith, by linarith⟩)
                                    (by norm_num)
                             _ = 0.08 := one_mul 0.08)
              (Real.abs_sin_le_one _)
        _ = 0.08 := mul_one 0.08
    have hthorn5 : |(g 5 - 0.5) * 0.4| ≤ 0.2 := by
      calc |(g 5 - 0.5) * 0.4| ≤ 0.5 * 0.4 :=
            abs_mul_le (centered_draw_abs h5a h5b)
              (abs_le_self_of_nonneg (by norm_num))
        _ = 0.2 := by norm_num
    have hthorn6 : |(g 6 - 0.5) * 0.4| ≤ 0.2 := by
      calc |(g 6 - 0.5) * 0.4| ≤ 0.5 * 0.4 :=
            abs_mul_le (centered_draw_abs h6a h6b)
              (abs_le_self_of_nonneg (by norm_num))
        _ = 0.2 := by norm_num
    by_cases hth : g 4 < 0.05
    · simp only [rosePoint, bounded6, if_pos hstem, if_pos hth]
      refine ⟨?_, hy, ?_⟩
      · calc |Real.sin ((-1.5 - g 1 * 2.5) * 2.0) * 0.1
            + g 2 * 0.08 * Real.cos (g 3 * Real.pi * 2)
            + (g 5 - 0.5) * 0.4|
            ≤ |Real.sin ((-1.5 - g 1 * 2.5) * 2.0) * 0.1
                + g 2 * 0.08 * Real.cos (g 3 * Real.pi * 2)|
              + |(g 5 - 0.5) * 0.4| := abs_add _ _
          _ ≤ (|Real.sin ((-1.5 - g 1 * 2.5) * 2.0) * 0.1|
                + |g 2 * 0.08 * Real.cos (g 3 * Real.pi * 2)|)
              + |(g 5 - 0.5) * 0.4| := by
                linarith [abs_add (Real.sin ((-1.5 - g 1 * 2.5) * 2.0) * 0.1)
                  (g 2 * 0.08 * Real.cos (g 3 * Real.pi * 2))]
          _ ≤ 6 := by linarith
      · calc |g 2 * 0.08 * Real.sin (g 3 * Real.pi * 2) + (g 6 - 0.5) * 0.4|
            ≤ |g 2 * 0.08 * Real.sin (g 3 * Real.pi * 2)|
              + |(g 6 - 0.5) * 0.4| := abs_add _ _
          _ ≤ 6 := by linarith
    · simp only [rosePoint, bounded6, if_pos hstem, if_neg hth]
      refine ⟨?_, hy, ?_⟩
      · calc |Real.sin ((-1.5 - g 1 * 2.5) * 2.0) * 0.1
            + g 2 * 0.08 * Real.cos (g 3 * Real.pi * 2)|
            ≤ |Real.sin ((-1.5 - g 1 * 2.5) * 2.0) * 0.1|
              + |g 2 * 0.08 * Real.cos (g 3 * Real.pi * 2)| := abs_add _ _
          _ ≤ 6 := by linarith
      · exact le_trans hrs (by norm_num)
  · simp only [rosePoint, bounded6, if_neg hstem]
    have hr : |g 1 ^ ((0.6 : ℝ)) * 1.5
        + Real.sin (g 2 * Real.pi * 2 * 3.0 + g 1 * 10.0) * 0.2 * g 1|
        ≤ 1.7 := by
      have hpow : |g 1 ^ ((0.6 : ℝ)) * 1.5| ≤ 1.5 := by
        calc |g 1 ^ ((0.6 : ℝ)) * 1.5| ≤ 1 * 1.5 :=
              abs_mul_le
                (by rw [abs_of_nonneg (Real.rpow_nonneg h1a _)]
                    exact Real.rpow_le_one h1a h1b.le (by norm_num))
                (abs_le_self_of_nonneg (by norm_num))
          _ = 1.5 := one_mul 1.5
      have hpetal : |Real.sin (g 2 * Real.pi * 2 * 3.0 + g 1 * 10.0)
          * 0.2 * g 1| ≤ 0.2 :=
        calc |Real.sin (g 2 * Real.pi * 2 * 3.0 + g 1 * 10.0) * 0.2 * g 1|
            ≤ 1 * 0.2 * 1 :=
              abs_mul_le
                (abs_mul_le (Real.abs_sin_le_one _)
                  (abs_le_self_of_nonneg (by norm_num)))
                (abs_le.mpr ⟨by linarith, by linarith⟩)
          _ = 0.2 := by norm_num
      calc |g 1 ^ ((0.6 : ℝ)) * 1.5
          + Real.sin (g 2 * Real.pi * 2 * 3.0 + g 1 * 10.0) * 0.2 * g 1|
          ≤ |g 1 ^ ((0.6 : ℝ)) * 1.5|
            + |Real.sin (g 2 * Real.pi * 2 * 3.0 + g 1 * 10.0) * 0.2 * g 1| :=
            abs_add _ _
        _ ≤ 1.7 := by linarith
    refine ⟨?_, ?_, ?_⟩
    · calc |(g 1 ^ ((0.6 : ℝ)) * 1.5
          + Real.sin (g 2 * Real.pi * 2 * 3.0 + g 1 * 10.0) * 0.2 * g 1)
          * Real.cos (g 2 * Real.pi * 2)| ≤ 1.7 * 1 :=
            abs_mul_le hr (Real.abs_cos_le_one _)
        _ ≤ 6 := by norm_num
    · rw [abs_le]
      constructor <;> linarith
    · calc |(g 1 ^ ((0.6 : ℝ)) * 1.5
          + Real.sin (g 2 * Real.pi * 2 * 3.0 + g 1 * 10.0) * 0.2 * g 1)
          * Real.sin (g 2 * Real.pi * 2)| ≤ 1.7 * 1 :=
            abs_mul_le hr (Real.abs_sin_le_one _)
        _ ≤ 6 := by norm_num

lemma saturnPoint_bound (g : ℕ → ℝ) (hg : ∀ k, 0 ≤ g k ∧ g k < 1) :
    bounded6 (saturnPoint g) := by
  obtain ⟨h2a, h2b⟩ := hg 2
  obtain ⟨h3a, h3b⟩ := hg 3
  by_cases hring : g 0 > 0.4
  · simp only [saturnPoint, bounded6, if_pos hring]
    have hdist : |(3 : ℝ) + g 2 * 2| ≤ 5 := by
      rw [abs_le]
      constructor <;> linarith
    refine ⟨?_, ?_, ?_⟩
    · calc |Real.cos (g 1 * Real.pi * 2) * (3 + g 2 * 2)| ≤ 1 * 5 :=
            abs_mul_le (Real.abs_cos_le_one _) hdist
        _ ≤ 6 := by norm_num
    · calc |(g 3 - 0.5) * 0.1| ≤ 0.5 * 0.1 :=
            abs_mul_le (centered_draw_abs h3a h3b)
              (abs_le_self_of_nonneg (by norm_num))
        _ ≤ 6 := by norm_num
    · calc |Real.sin (g 1 * Real.pi * 2) * (3 + g 2 * 2)| ≤ 1 * 5 :=
            abs_mul_le (Real.abs_sin_le_one _) hdist
        _ ≤ 6 := by norm_num
  · simp only [saturnPoint, bounded6, if_neg hring]
    have hc := sphere_comp_le 1.8 (g 1) (g 2) (g 3) (by norm_num) h3a h3b.le
    exact ⟨le_trans hc.1 (by norm_num), le_trans hc.2.1 (by norm_num),
      le_trans hc.2.2 (by norm_num)⟩

lemma lOutlineXY_bound (side : ℕ) (g : ℕ → ℝ)
    (h2a : 0 ≤ g 2) (h2b : g 2 < 1) (h3a : 0 ≤ g 3) (h3b : g 3 < 1) :
    |(lOutlineXY side g).1| ≤ 6 ∧ |(lOutlineXY side g).2| ≤ 6 := by
  rcases side with _ | _ | _ | _ | _ | _ | s <;>
    · simp only [lOutlineXY]
      constructor <;>
        · rw [abs_le]
          constructor <;> linarith

lemma dlPoint_bound (i count : ℕ) (g : ℕ → ℝ)
    (hg : ∀ k, 0 ≤ g k ∧ g k < 1) : bounded6 (dlPoint i count g) := by
  obtain ⟨h2a, h2b⟩ := hg 2
  obtain ⟨h3a, h3b⟩ := hg 3
  obtain ⟨h4a, h4b⟩ := hg 4
  have hz3 : |(g 4 - 0.5) * 0.3| ≤ 6 := by
    calc |(g 4 - 0.5) * 0.3| ≤ 0.5 * 0.3 :=
          abs_mul_le (centered_draw_abs h4a h4b)
            (abs_le_self_of_nonneg (by norm_num))
      _ ≤ 6 := by norm_num
  have hz5 : |(g 4 - 0.5) * 0.5| ≤ 6 := by
    calc |(g 4 - 0.5) * 0.5| ≤ 0.5 * 0.5 :=
          abs_mul_le (centered_draw_abs h4a h4b)
            (abs_le_self_of_nonneg (by norm_num))
      _ ≤ 6 := by norm_num
  by_cases hD : 2 * i < count
  · by_cases hOut : g 0 < 0.7
    · by_cases hVert : g 1 < 0.4
      · simp only [dlPoint, bounded6, if_pos hD, if_pos hOut, if_pos hVert]
        refine ⟨?_, ?_, hz3⟩ <;>
          · rw [abs_le]
            constructor <;> linarith
      · simp only [dlPoint, bounded6, if_pos hD, if_pos hOut, if_neg hVert]
        have hrad : |1.5 + (g 3 - 0.5) * 0.2| ≤ 1.6 := by
          rw [abs_le]
          constructor <;> linarith
        have harc := abs_mul_le hrad
          (Real.abs_cos_le_one ((g 2 - 0.5) * Real.pi))
        refine ⟨?_, ?_, hz3⟩
        · have := abs_le.mp harc
          rw [abs_le]
          constructor <;> linarith [this.1, this.2]
        · calc |(1.5 + (g 3 - 0.5) * 0.2)
              * Real.sin ((g 2 - 0.5) * Real.pi)| ≤ 1.6 * 1 :=
                abs_mul_le hrad (Real.abs_sin_le_one _)
            _ ≤ 6 := by norm_num
    · by_cases hVf : g 1 < 0.5
      · simp only [dlPoint, bounded6, if_pos hD, if_neg hOut, if_pos hVf]
        refine ⟨?_, ?_, hz5⟩ <;>
          · rw [abs_le]
            constructor <;> linarith
      · simp only [dlPoint, bounded6, if_pos hD, if_neg hOut, if_neg hVf]
        have hrad : |g 3 * 1.5| ≤ 1.5 := by
          rw [abs_le]
          constructor <;> linarith
        have harc := abs_le.mp
          (abs_mul_le hrad (Real.abs_cos_le_one ((g 2 - 0.5) * Real.pi)))
        refine ⟨?_, ?_, hz5⟩
        · rw [abs_le]
          constructor
          · exact le_trans (by norm_num) (le_max_right _ _)
          · exact max_le (by linarith [harc.2]) (by norm_num)
        · calc |g 3 * 1.5 * Real.sin ((g 2 - 0.5) * Real.pi)| ≤ 1.5 * 1 :=
                abs_mul_le hrad (Real.abs_sin_le_one _)
            _ ≤ 6 := by norm_num
  · by_cases hOut : g 0 < 0.7
    · simp only [dlPoint, bounded6, if_neg hD, if_pos hOut]
      have hxy := lOutlineXY_bound (Nat.floor (g 1 * 6)) g h2a h2b h3a h3b
      exact ⟨hxy.1, hxy.2, hz3⟩
    · by_cases hVf : g 1 < 0.6
      · simp only [dlPoint, bounded6, if_neg hD, if_neg hOut, if_pos hVf]
        refine ⟨?_, ?_, hz5⟩ <;>
          · rw [abs_le]
            constructor <;> linarith
      · simp only [dlPoint, bounded6, if_neg hD, if_neg hOut, if_neg hVf]
        refine ⟨?_, ?_, hz5⟩ <;>
          · rw [abs_le]
            constructor <;> linarith

lemma treePoint_bound (g : ℕ → ℝ) (hg : ∀ k, 0 ≤ g k ∧ g k < 1) :
    bounded6 (treePoint g) := by
  obtain ⟨h1a, h1b⟩ := hg 1
  obtain ⟨h2a, h2b⟩ := hg 2
  obtain ⟨h3a, h3b⟩ := hg 3
  by_cases hstar : g 0 > 0.95
  · simp only [treePoint, bounded6, if_pos hstar]
    have hc := sphere_comp_le 0.3 (g 1) (g 2) (g 3) (by norm_num) h3a h3b.le
    refine ⟨le_trans hc.1 (by norm_num), ?_, le_trans hc.2.2 (by norm_num)⟩
    calc |(randomPointInSphere 0.3 (g 1) (g 2) (g 3)).2.1 + 2.2|
        ≤ |(randomPointInSphere 0.3 (g 1) (g 2) (g 3)).2.1| + |(2.2 : ℝ)| :=
          abs_add _ _
      _ ≤ 0.3 + 2.2 := by
          have h22 : |(2.2 : ℝ)| ≤ 2.2 := abs_le_self_of_nonneg (by norm_num)
          linarith [hc.2.1]
      _ ≤ 6 := by norm_num
  · simp only [treePoint, bounded6, if_neg hstar]
    have hsq : |Real.sqrt (g 2)| ≤ 1 := by
      rw [abs_of_nonneg (Real.sqrt_nonneg _)]
      calc Real.sqrt (g 2) ≤ Real.sqrt 1 := Real.sqrt_le_sqrt h2b.le
        _ = 1 := Real.sqrt_one
    have hmaxR : |(1.0 - g 1) * 1.8| ≤ 1.8 := by
      rw [abs_le]
      constructor <;> linarith
    have hr : |Real.sqrt (g 2) * ((1.0 - g 1) * 1.8)| ≤ 1.8 := by
      calc |Real.sqrt (g 2) * ((1.0 - g 1) * 1.8)| ≤ 1 * 1.8 :=
            abs_mul_le hsq hmaxR
        _ = 1.8 := one_mul 1.8
    have hsp : |Real.sin ((g 1 * 4.0 - 2.0) * 10 + g 3 * Real.pi * 2 * 5)
        * 0.1| ≤ 0.1 := by
      calc |Real.sin ((g 1 * 4.0 - 2.0) * 10 + g 3 * Real.pi * 2 * 5) * 0.1|
          ≤ 1 * 0.1 :=
            abs_mul_le (Real.abs_sin_le_one _)
              (abs_le_self_of_nonneg (by norm_num))
        _ = 0.1 := one_mul 0.1
    have hsum : |Real.sqrt (g 2) * ((1.0 - g 1) * 1.8)
        + Real.sin ((g 1 * 4.0 - 2.0) * 10 + g 3 * Real.pi * 2 * 5) * 0.1|
        ≤ 1.9 := by
      calc |Real.sqrt (g 2) * ((1.0 - g 1) * 1.8)
          + Real.sin ((g 1 * 4.0 - 2.0) * 10 + g 3 * Real.pi * 2 * 5) * 0.1|
          ≤ |Real.sqrt (g 2) * ((1.0 - g 1) * 1.8)|
            + |Real.sin ((g 1 * 4.0 - 2.0) * 10 + g 3 * Real.pi * 2 * 5)
                * 0.1| := abs_add _ _
        _ ≤ 1.9 := by linarith
    refine ⟨?_, ?_, ?_⟩
    · calc |(Real.sqrt (g 2) * ((1.0 - g 1) * 1.8)
          + Real.sin ((g 1 * 4.0 - 2.0) * 10 + g 3 * Real.pi * 2 * 5) * 0.1)
          * Real.cos (g 3 * Real.pi * 2)| ≤ 1.9 * 1 :=
            abs_mul_le hsum (Real.abs_cos_le_one _)
        _ ≤ 6 := by norm_num
    · rw [abs_le]
      constructor <;> linarith
    · calc |(Real.sqrt (g 2) * ((1.0 - g 1) * 1.8)
          + Real.sin ((g 1 * 4.0 - 2.0) * 10 + g 3 * Real.pi * 2 * 5) * 0.1)
          * Real.sin (g 3 * Real.pi * 2)| ≤ 1.9 * 1 :=
            abs_mul_le hsum (Real.abs_sin_le_one _)
        _ ≤ 6 := by norm_num

lemma genPoint_bound (shape : ShapeType) (i count : ℕ) (g : ℕ → ℝ)
    (hg : ∀ k, 0 ≤ g k ∧ g k < 1) : bounded6 (genPoint shape i count g) := by
  cases shape with
  | HEART => exact heartPoint_bound g hg
  | ROSE => exact rosePoint_bound g hg
  | SATURN => exact saturnPoint_bound g hg
  | DL => exact dlPoint_bound i count g hg
  | TREE => exact treePoint_bound g hg
  | OTHER =>
      refine ⟨?_, ?_, ?_⟩ <;> simp [genPoint]

/-- Claim C1: for every shape selector (the five shapes and the default
case) and every particle count `N > 0`, with all random draws in `[0,1)`,
`generateParticles` returns a flat buffer of exactly length `3N`, every
component of which is bounded by `6` in absolute value (in particular
finite: no NaN or Infinity arises in the real-number semantics); the
function depends only on its arguments and its random draws. -/
theorem generateParticles_spec (shape : ShapeType) (count : ℕ)
    (G : ℕ → ℕ → ℝ) (hcount : 0 < count)
    (hG : ∀ i k, 0 ≤ G i k ∧ G i k < 1) :
    (generateParticles shape count G).length = 3 * count ∧
    ∀ c ∈ generateParticles shape count G, |c| ≤ 6 := by
  refine ⟨generateParticles_length shape count G, ?_⟩
  intro c hc
  rw [generateParticles, List.mem_flatMap] at hc
  obtain ⟨i, hi, hmem⟩ := hc
  have hb := genPoint_bound shape i count (G i) (fun k => hG i k)
  simp only [List.mem_cons, List.not_mem_nil, or_false] at hmem
  rcases hmem with h | h | h <;> rw [h]
  · exact hb.1
  · exact hb.2.1
  · exact hb.2.2

/-- Witness for C1 at a concrete shape, count `1` and the all-zero draw
stream. -/
theorem generateParticles_spec_witness :
    (generateParticles ShapeType.SATURN 1 fun _ _ => 0).length = 3 * 1 ∧
    ∀ c ∈ generateParticles ShapeType.SATURN 1 fun _ _ => 0, |c| ≤ 6 :=
  generateParticles_spec ShapeType.SATURN 1 (fun _ _ => 0) (by norm_num)
    (fun i k => by norm_num)
